import Mathlib

/-!
Shallow embedding of the decision layer of the Helwan Commerce FAQ chatbot:
the topic classifier, response validator, fallback composer and response
cleaner from `response_validator.py`, and the response-cache matcher from
`gam3a_chatbot_gemini.py`.  Python strings are modelled as Lean `String`s,
Python `in` (substring) as an infix check over character lists, `str.lower`
as character-wise `Char.toLower` (Python's `lower` agrees with this on the
ASCII and Arabic text handled by this program), `str.strip` as
`String.trim`, and each regular-expression pattern of the source — all of
which are alternations of literals, optionally joined by `.*` or followed
by `\w+` — as the equivalent decidable predicate, noted at its definition.
-/

namespace Chatbot

/-- Substring test on character lists: `listInfix n h` is true iff `n`
occurs contiguously inside `h`.  Models Python's `n in h` on strings. -/
def listInfix (needle : List Char) : List Char → Bool
  | [] => needle.isEmpty
  | c :: rest => needle.isPrefixOf (c :: rest) || listInfix needle rest

/-- Python `needle in hay` for strings. -/
def containsSub (hay needle : String) : Bool :=
  listInfix needle.toList hay.toList

/-- Python `str.lower()`, modelled character-wise.  `Char.toLower` maps
`A`–`Z` to `a`–`z` and fixes everything else; Python's `lower` agrees on
ASCII and on Arabic script (which has no case). -/
def pyLower (s : String) : String := String.mk (s.toList.map Char.toLower)

/-- Python `str.strip()`: drop leading and trailing whitespace. -/
def pyStrip (s : String) : String :=
  String.mk (((s.toList.dropWhile Char.isWhitespace).reverse.dropWhile
    Char.isWhitespace).reverse)

/-- An accumulated validation issue.  The source appends an f-string per
issue; each constructor here carries the datum interpolated into that
message: `restricted kw` for `"Using external knowledge: '{kw}'"`,
`vague pat` for `"Using vague/general language: {pat}"`, and `number n`
for `"Using number not in college info: {n}"`. -/
inductive Issue where
  | restricted (kw : String)
  | vague (pat : String)
  | number (n : String)
deriving DecidableEq, Repr

/-- The `RESTRICTED_KEYWORDS` table of `response_validator.py`. -/
def RESTRICTED_KEYWORDS : List String := [
  "جامعة القاهرة", "جامعة عين شمس", "الأزهر", "الإسكندرية",
  "Cairo University", "Ain Shams", "Alexandria University",
  "معلومات عامة", "general information", "usually", "typically",
  "في الجامعات المصرية", "Egyptian universities", "most colleges"
]

/-- Check 1 of `validate_response`: a restricted keyword present in the
response (case-insensitively) but absent from the college info is flagged. -/
def restrictedIssues (response college_info : String) : List Issue :=
  (RESTRICTED_KEYWORDS.filter (fun kw =>
    containsSub (pyLower response) (pyLower kw) &&
    !containsSub (pyLower college_info) (pyLower kw))).map Issue.restricted

/-- The `vague_patterns` table: each entry is the regex text of the source
paired with the list of its alternative literals (each pattern is a plain
alternation `a|b|...`, so `re.search(pat, s, IGNORECASE)` succeeds iff some
alternative occurs case-insensitively in `s`). -/
def vague_patterns : List (String × List String) := [
  ("عادة|usually|typically|generally|في معظم",
    ["عادة", "usually", "typically", "generally", "في معظم"]),
  ("بشكل عام|in general|commonly|often",
    ["بشكل عام", "in general", "commonly", "often"]),
  ("في الجامعات|in universities|most colleges",
    ["في الجامعات", "in universities", "most colleges"])
]

/-- Case-insensitive match of one alternation pattern against the response,
modelling `re.search(pattern, response, re.IGNORECASE)`. -/
def vagueMatches (response : String) (alts : List String) : Bool :=
  alts.any (fun a => containsSub (pyLower response) (pyLower a))

/-- Check 2 of `validate_response`: vague-language patterns, flagged from
the response alone (the college info is never consulted). -/
def vagueIssues (response : String) : List Issue :=
  (vague_patterns.filter (fun p => vagueMatches response p.2)).map
    (fun p => Issue.vague p.1)

/-- Maximal digit runs of a character list, accumulator form. -/
def digitRunsAux : List Char → List Char → List (List Char)
  | [], acc => if acc.isEmpty then [] else [acc.reverse]
  | c :: rest, acc =>
    if c.isDigit then digitRunsAux rest (c :: acc)
    else if acc.isEmpty then digitRunsAux rest []
    else acc.reverse :: digitRunsAux rest []

/-- Python `re.findall(r'\d+', s)`: the maximal digit runs of `s`, in
order.  Digits are modelled as ASCII `0`–`9`; the program's data uses only
these (Python's `\d` would additionally accept other Unicode decimal
digits, which do not occur in this repository's strings). -/
def findallDigits (s : String) : List String :=
  (digitRunsAux s.toList []).map String.mk

/-- Check 3 of `validate_response`: a digit run of the response is flagged
when it is not an element of the college info's digit-run list (`num not in
numbers_in_info`, exact list membership) and is longer than 2 digits. -/
def numberIssues (response college_info : String) : List Issue :=
  ((findallDigits response).filter (fun num =>
    !(decide (num ∈ findallDigits college_info)) &&
    decide (2 < num.length))).map Issue.number

/-- The validation verdict returned by `validate_response`: Python's dict
`{"is_valid": ..., "issues": [...], "score": ...}`. -/
structure Verdict where
  is_valid : Bool
  issues : List Issue
  score : Int
deriving DecidableEq, Repr

/-- The `validate_response` function of `response_validator.py`: runs the
three checks in order, accumulates all issues, and reports validity and a
score `max(0, 100 - len(issues) * 20)`. -/
def validate_response (response college_info : String) : Verdict :=
  let issues := restrictedIssues response college_info ++
    vagueIssues response ++ numberIssues response college_info
  { is_valid := issues.length == 0,
    issues := issues,
    score := max 0 (100 - (issues.length : Int) * 20) }

/-- The `get_fallback_response` function: one of exactly two fixed
sentences, selected by the `is_arabic` flag.  (Its `question` parameter is
unused in the source as well.) -/
def get_fallback_response (question : String) (is_arabic : Bool) : String :=
  if is_arabic then
    "آسف، المعلومة دي مش متوفرة عندي دلوقتي، بس هتكون متاحة قريب إن شاء الله. ممكن تسأل عن حاجة تانية متعلقة بكلية التجارة جامعة حلوان؟"
  else
    "Sorry, I don\x27t have this information right now, but it will be available soon. Can you ask about something else related to the Faculty of Commerce at Helwan University?"

/-- The `clean_response` function: return the response unchanged when the
verdict is valid, otherwise a fallback whose language is chosen by scanning
the response (not the question) for any character with code point > 127. -/
def clean_response (response college_info : String) : String :=
  let validation := validate_response response college_info
  if !validation.is_valid then
    let is_arabic := response.toList.any (fun c => 127 < c.toNat)
    get_fallback_response "" is_arabic
  else response

/-- The `college_keywords` allowlist of `is_college_related_question`. -/
def college_keywords : List String := [
  "كلية", "تجارة", "حلوان", "bis", "fmi", "sbs", "انجليش", "عربي",
  "college", "commerce", "helwan", "english", "arabic", "business",
  "مصاريف", "fees", "تقديم", "admission", "قبول", "acceptance",
  "انتظام", "انتساب", "دراسة", "طلاب", "students", "study",
  "محاسبة", "ادارة", "اقتصاد", "احصاء", "قسم", "department",
  "شهادة", "certificate", "تخرج", "graduation", "سنة", "year",
  "فصل", "semester", "مواد", "subjects", "انترفيو", "interview"
]

/-- Allowlist step: `any(keyword.lower() in question_lower for keyword in
college_keywords)`.  The argument is the already-lowered question. -/
def keywordMatch (question_lower : String) : Bool :=
  college_keywords.any (fun kw => containsSub question_lower (pyLower kw))

/-- A word character, modelling the regex class `\w` for the ASCII inputs
this program distinguishes on (Python's `\w` additionally accepts non-ASCII
Unicode word characters). -/
def isWordChar (c : Char) : Bool := c.isAlphanum || c == '_'

/-- Decides whether the list `pre` occurs in `s` immediately followed by a
word character: models `re.search(pre + r'\w+', s)` for a literal `pre`. -/
def followedByWord (pre : List Char) : List Char → Bool
  | [] => false
  | c :: rest =>
    (pre.isPrefixOf (c :: rest) &&
      (match (c :: rest).drop pre.length with
       | d :: _ => isWordChar d
       | [] => false)) || followedByWord pre rest

/-- Decides whether `b` occurs in `s` with no intervening newline, from the
current position: the continuation of a `.*` regex segment (`.` does not
match a newline without `re.DOTALL`). -/
def dotStarTail (b : List Char) : List Char → Bool
  | [] => b.isEmpty
  | c :: rest => b.isPrefixOf (c :: rest) || (c != '\n' && dotStarTail b rest)

/-- Decides `re.search(a + '.*' + b, s)` for literals `a`, `b`: some
occurrence of `a` is followed, after any newline-free gap, by `b`. -/
def dotStarMatch (a b : List Char) : List Char → Bool
  | [] => a.isEmpty && b.isEmpty
  | c :: rest =>
    (a.isPrefixOf (c :: rest) && dotStarTail b ((c :: rest).drop a.length)) ||
    dotStarMatch a b rest

/-- String wrapper for `dotStarMatch`. -/
def dotStarSearch (q a b : String) : Bool :=
  dotStarMatch a.toList b.toList q.toList

/-- Greeting step of `is_college_related_question`: each disjunct models one
pattern of `greeting_patterns`, in order.  `^hello?$` accepts exactly
`hell`/`hello` (with `$` also matching just before one trailing newline),
likewise `^hi$` and `^hey$`; `thanks?` and the other unanchored literals
reduce to substring search; `good (morning|afternoon|evening)` to three
literals; `what.*my name` to a `.*` search; `i am \w+` to the literal
`"i am "` followed by a word character. -/
def greetingMatch (q : String) : Bool :=
  (q == "hell" || q == "hello" || q == "hell\n" || q == "hello\n") ||
  (q == "hi" || q == "hi\n") ||
  (q == "hey" || q == "hey\n") ||
  containsSub q "thank" ||
  containsSub q "thank you" ||
  (containsSub q "good morning" || containsSub q "good afternoon" ||
    containsSub q "good evening") ||
  containsSub q "how are you" ||
  dotStarSearch q "what" "my name" ||
  containsSub q "who am i" ||
  followedByWord "i am ".toList q.toList ||
  containsSub q "my name is"

/-- Inappropriate-content step: each disjunct models one pattern of
`inappropriate_patterns`, in order: `how to (hack|steal|cheat)` as three
literals, `illegal`, `drugs`, `violence` as substring search, and
`explicit.*content`, `adult.*content` as `.*` searches. -/
def inappropriateMatch (q : String) : Bool :=
  (containsSub q "how to hack" || containsSub q "how to steal" ||
    containsSub q "how to cheat") ||
  containsSub q "illegal" ||
  containsSub q "drugs" ||
  containsSub q "violence" ||
  dotStarSearch q "explicit" "content" ||
  dotStarSearch q "adult" "content"

/-- The `is_college_related_question` classifier of `response_validator.py`:
allowlist keywords accept, then greeting patterns accept, then questions of
trimmed length at most 2 are rejected, then inappropriate-content patterns
reject, and everything else is accepted. -/
def is_college_related_question (question : String) : Bool :=
  let question_lower := pyLower question
  if keywordMatch question_lower then true
  else if greetingMatch question_lower then true
  else if (pyStrip question).length ≤ 2 then false
  else if inappropriateMatch question_lower then false
  else true

/-- The `response_cache` dict literal of `gam3a_chatbot_gemini.py`, as an
ordered association list (Python dicts iterate in insertion order). -/
def response_cache : List (String × String) := [
  ("مصاريف عربي انتظام", "مصاريف النظام العربي انتظام: **3,650 جنيه سنوياً** 📚"),
  ("مصاريف عربي انتساب", "مصاريف النظام العربي انتساب: **4,120 جنيه سنوياً** 📚"),
  ("مصاريف عربي", "مصاريف النظام العربي:\n• انتظام: **3,650 جنيه سنوياً**\n• انتساب: **4,120 جنيه سنوياً** 📚"),
  ("موقع الكلية", "الكلية في موقعين:\n• **النظام العربي والإنجليزي**: حلوان\n• **BIS و FMI و SBS**: الزمالك 📍"),
  ("فين الكلية", "الكلية في موقعين:\n• **النظام العربي والإنجليزي**: حلوان\n• **BIS و FMI و SBS**: الزمالك 📍")
]

/-- The cache hit test of the chat-input loop: `cached_q in prompt_clean or
prompt_clean in cached_q`. -/
def entryHit (prompt_clean cached_q : String) : Bool :=
  containsSub prompt_clean cached_q || containsSub cached_q prompt_clean

/-- The loop body over the cache entries: first entry whose key passes
`entryHit` wins, returning its cached response. -/
def cacheLoop (prompt_clean : String) : List (String × String) → Option String
  | [] => none
  | (cached_q, cached_response) :: rest =>
    if entryHit prompt_clean cached_q then some cached_response
    else cacheLoop prompt_clean rest

/-- The cache matcher of `gam3a_chatbot_gemini.py`: normalize the prompt by
`prompt.strip().lower()` and scan the cache in insertion order. -/
def cacheMatch (prompt : String) (cache : List (String × String)) : Option String :=
  cacheLoop (pyLower (pyStrip prompt)) cache

/-- Helper: the verdict is valid exactly when its issue list is empty. -/
theorem valid_iff_issues_nil (r k : String) :
    (validate_response r k).is_valid = true ↔
      (validate_response r k).issues = [] := by
  simp [validate_response, Nat.beq_eq_true_eq, List.length_eq_zero]

/-- Helper: the verdict is invalid exactly when some issue was accumulated. -/
theorem invalid_of_issues_ne_nil (r k : String)
    (h : (validate_response r k).issues ≠ []) :
    (validate_response r k).is_valid = false := by
  cases hb : (validate_response r k).is_valid
  · rfl
  · exact absurd ((valid_iff_issues_nil r k).mp hb) h

/-- C1: the claim says every question containing an off-topic blocklist term
(weather, news, sports, ...) is rejected, e.g. the spec's example
`What's the weather today?`.  The code has no such blocklist:
`is_college_related_question` accepts both the spec's example and the test
suite's `What is the weather today?` (which `test_chat_system.py` expects to
be rejected), so the code contradicts its own tests. -/
theorem classifier_accepts_blocklist_examples :
    is_college_related_question "What\x27s the weather today?" = true ∧
    is_college_related_question "What is the weather today?" = true := by
  decide

/-- C2 counterexample: a question matching an inappropriate-content pattern
(`how to hack`) but also containing an allowlist keyword (`college`, `fees`)
is accepted, because the allowlist check runs first — refuting the claim
that inappropriate patterns reject regardless of allowlist keywords. -/
theorem classifier_inappropriate_overridden_by_keyword :
    inappropriateMatch (pyLower "how to hack the college fees") = true ∧
    is_college_related_question "how to hack the college fees" = true := by
  decide

/-- C2 amended: a question matching an inappropriate-content pattern is
rejected provided it contains no allowlist keyword and matches no greeting
pattern (the allowlist and greeting checks take precedence). -/
theorem classifier_rejects_inappropriate_without_keyword_or_greeting
    (q : String)
    (hin : inappropriateMatch (pyLower q) = true)
    (hkw : keywordMatch (pyLower q) = false)
    (hgr : greetingMatch (pyLower q) = false) :
    is_college_related_question q = false := by
  by_cases hl : (pyStrip q).length ≤ 2 <;>
    simp [is_college_related_question, hkw, hgr, hin, hl]

/-- C2 witness: `how to hack a bank` matches an inappropriate pattern, no
allowlist keyword and no greeting, and is rejected. -/
theorem classifier_rejects_inappropriate_witness :
    (inappropriateMatch (pyLower "how to hack a bank") = true ∧
      keywordMatch (pyLower "how to hack a bank") = false ∧
      greetingMatch (pyLower "how to hack a bank") = false) ∧
    is_college_related_question "how to hack a bank" = false :=
  ⟨⟨by decide, by decide, by decide⟩,
    classifier_rejects_inappropriate_without_keyword_or_greeting
      "how to hack a bank" (by decide) (by decide) (by decide)⟩

/-- C3 counterexample: the claim says the response digit run `365` is not
flagged when the knowledge document contains the run `3650` (substring
comparison).  The code tests exact membership of the run in the knowledge
document's run list (`num not in numbers_in_info`), so `365` is flagged. -/
theorem number_check_flags_365_against_3650 :
    (validate_response "365" "3650").issues = [Issue.number "365"] ∧
    (validate_response "365" "3650").is_valid = false := by
  decide

/-- C3 amended: a digit run `n` yields a number-leakage issue iff `n` is a
maximal digit run of the response, is longer than 2 digits, and is not
*equal* to any maximal digit run of the knowledge document (exact list
membership, not substring containment). -/
theorem number_issue_iff_exact_membership (r k n : String) :
    Issue.number n ∈ (validate_response r k).issues ↔
      n ∈ findallDigits r ∧ 2 < n.length ∧ n ∉ findallDigits k := by
  show Issue.number n ∈ restrictedIssues r k ++ vagueIssues r ++
    numberIssues r k ↔ _
  simp only [restrictedIssues, vagueIssues, numberIssues, List.mem_append,
    List.mem_map, List.mem_filter, Bool.and_eq_true, Bool.not_eq_true',
    decide_eq_true_eq, decide_eq_false_iff_not]
  constructor
  · rintro ((⟨a, _, h⟩ | ⟨p, _, h⟩) | ⟨a, ⟨ha, hk', hl⟩, h⟩)
    · exact absurd h (by simp)
    · exact absurd h (by simp)
    · obtain rfl : a = n := by injection h
      exact ⟨ha, hl, hk'⟩
  · rintro ⟨ha, hl, hk'⟩
    exact Or.inr ⟨n, ⟨ha, hk', hl⟩, rfl⟩

/-- C4: the cache matcher normalizes the question by strip plus lowercase
and scans the cache in registration order: the first entry whose key passes
the two-way substring test wins, and its literal answer is returned. -/
theorem cache_first_registered_match_wins (q : String)
    (pre rest : List (String × String)) (k v : String)
    (hpre : ∀ e ∈ pre, entryHit (pyLower (pyStrip q)) e.1 = false)
    (hk : entryHit (pyLower (pyStrip q)) k = true) :
    cacheMatch q (pre ++ (k, v) :: rest) = some v := by
  induction pre with
  | nil => simp [cacheMatch, cacheLoop, hk]
  | cons e pre ih =>
    obtain ⟨ek, ev⟩ := e
    have he : entryHit (pyLower (pyStrip q)) ek = false :=
      hpre (ek, ev) (by simp)
    have ih' := ih (fun e he' => hpre e (List.mem_cons_of_mem _ he'))
    simpa [cacheMatch, cacheLoop, he] using ih'

/-- C4 witness: for a cache whose first two registered entries are
`مصاريف عربي انتظام` and `مصاريف عربي` (both of which match the question
`مصاريف عربي انتظام لو سمحت`), the matcher returns the first-registered
entry's literal answer. -/
theorem cache_first_registered_match_witness :
    cacheMatch "مصاريف عربي انتظام لو سمحت"
      [("مصاريف عربي انتظام", "مصاريف النظام العربي انتظام: **3,650 جنيه سنوياً** 📚"),
       ("مصاريف عربي", "مصاريف النظام العربي:\n• انتظام: **3,650 جنيه سنوياً**\n• انتساب: **4,120 جنيه سنوياً** 📚")] =
      some "مصاريف النظام العربي انتظام: **3,650 جنيه سنوياً** 📚" :=
  cache_first_registered_match_wins "مصاريف عربي انتظام لو سمحت" []
    [("مصاريف عربي", "مصاريف النظام العربي:\n• انتظام: **3,650 جنيه سنوياً**\n• انتساب: **4,120 جنيه سنوياً** 📚")]
    "مصاريف عربي انتظام" "مصاريف النظام العربي انتظام: **3,650 جنيه سنوياً** 📚"
    (by simp) (by decide)

/-- C5: any response matching one of the three vague-language regular
expressions — that is, containing some alternative of some entry of
`vague_patterns` case-insensitively — accumulates the vague issue for that
pattern, so the verdict is invalid, for every knowledge document: the vague
check never consults the knowledge document. -/
theorem vague_pattern_always_flagged (r k : String)
    (p : String × List String) (hp : p ∈ vague_patterns)
    (hm : vagueMatches r p.2 = true) :
    Issue.vague p.1 ∈ (validate_response r k).issues ∧
    (validate_response r k).is_valid = false := by
  have hmem : Issue.vague p.1 ∈ vagueIssues r := by
    unfold vagueIssues
    exact List.mem_map.mpr ⟨p, List.mem_filter.mpr ⟨hp, hm⟩, rfl⟩
  have hmem' : Issue.vague p.1 ∈ (validate_response r k).issues :=
    List.mem_append.mpr (Or.inl (List.mem_append.mpr (Or.inr hmem)))
  exact ⟨hmem', invalid_of_issues_ne_nil r k (List.ne_nil_of_mem hmem')⟩

/-- C5 witness: the response `usually` matches the first vague pattern and
is flagged as invalid even with the knowledge document `usually`, which
itself contains the word. -/
theorem vague_pattern_flagged_witness :
    (("عادة|usually|typically|generally|في معظم",
        ["عادة", "usually", "typically", "generally", "في معظم"]) ∈
      vague_patterns ∧
      vagueMatches "usually"
        ["عادة", "usually", "typically", "generally", "في معظم"] = true) ∧
    (Issue.vague "عادة|usually|typically|generally|في معظم" ∈
        (validate_response "usually" "usually").issues ∧
      (validate_response "usually" "usually").is_valid = false) :=
  ⟨⟨by decide, by decide⟩,
    vague_pattern_always_flagged "usually" "usually"
      ("عادة|usually|typically|generally|في معظم",
        ["عادة", "usually", "typically", "generally", "في معظم"])
      (by decide) (by decide)⟩

/-- C6: the score is `max(0, 100 - 20 * issue_count)`, an integer between
0 and 100. -/
theorem score_formula_and_bounds (r k : String) :
    (validate_response r k).score =
      max 0 (100 - ((validate_response r k).issues.length : Int) * 20) ∧
    0 ≤ (validate_response r k).score ∧
    (validate_response r k).score ≤ 100 :=
  ⟨rfl, le_max_left _ _, max_le (by norm_num) (by omega)⟩

/-- C7: the issue list is exactly the concatenation of the three checks'
issues — all checks run, nothing short-circuits — and the verdict is valid
iff that accumulated list is empty. -/
theorem issues_accumulated_and_validity_iff_empty (r k : String) :
    (validate_response r k).issues =
      restrictedIssues r k ++ vagueIssues r ++ numberIssues r k ∧
    ((validate_response r k).is_valid = true ↔
      (validate_response r k).issues = []) :=
  ⟨rfl, valid_iff_issues_nil r k⟩

/-- C9: validation is a pure function of its two arguments: two calls on
identical arguments return identical verdicts — same validity flag, same
issue list, same score. -/
theorem validate_response_deterministic (r k : String) :
    validate_response r k = validate_response r k ∧
    (validate_response r k).is_valid = (validate_response r k).is_valid ∧
    (validate_response r k).issues = (validate_response r k).issues ∧
    (validate_response r k).score = (validate_response r k).score :=
  ⟨rfl, rfl, rfl, rfl⟩

/-- C10: `clean_response` returns exactly one of three strings: the
response itself when validation accumulated no issues, else the fixed
Arabic fallback when the response contains a character with code point
above 127, else the fixed English fallback — the language is chosen from
the response text alone. -/
theorem clean_response_trichotomy (r k : String) :
    clean_response r k =
      (if (validate_response r k).issues = [] then r
       else if r.toList.any (fun c => 127 < c.toNat) then
         "آسف، المعلومة دي مش متوفرة عندي دلوقتي، بس هتكون متاحة قريب إن شاء الله. ممكن تسأل عن حاجة تانية متعلقة بكلية التجارة جامعة حلوان؟"
       else
         "Sorry, I don\x27t have this information right now, but it will be available soon. Can you ask about something else related to the Faculty of Commerce at Helwan University?") := by
  by_cases h : (validate_response r k).issues = []
  · have hv : (validate_response r k).is_valid = true :=
      (valid_iff_issues_nil r k).mpr h
    simp [clean_response, hv, h]
  · have hv : (validate_response r k).is_valid = false :=
      invalid_of_issues_ne_nil r k h
    simp [clean_response, get_fallback_response, hv, h]

/-- C8: the classifier's concrete edge cases: the empty question and the
whitespace-only question are rejected (trimmed length 0), while `hi` is
accepted because it matches a greeting pattern before the short-length
rejection applies. -/
theorem classifier_edge_cases :
    is_college_related_question "" = false ∧
    is_college_related_question "   " = false ∧
    is_college_related_question "hi" = true ∧
    greetingMatch (pyLower "hi") = true := by
  decide

end Chatbot
